import Mathlib

/-!
Verification of the STL weight calculator (src/app.py).

The geometry and weight logic of the application is embedded shallowly:
numpy float vectors become triples of rationals, the numpy dot and cross
products become their componentwise formulas, the material dictionaries
become association lists in source order, and the Python dictionary access
(which raises KeyError on a missing key) becomes an Option-valued lookup
where none models the raised error. The binary STL parser and the
per-triangle area computation live in the numpy-stl library rather than in
this repository, so those two pieces are modelled from the specification
text; every other definition is translated directly from src/app.py.
-/

namespace STLApp

/-- A 3D point with rational coordinates, standing for a numpy float vector. -/
abbrev Vec3 := ℚ × ℚ × ℚ

/-- One STL facet: the three vertices of a triangle, in file order
(a row of stl_mesh.vectors). -/
abbrev Tri := Vec3 × Vec3 × Vec3

/-- Componentwise embedding of np.cross for 3-vectors. -/
def cross (b c : Vec3) : Vec3 :=
  (b.2.1 * c.2.2 - b.2.2 * c.2.1,
   b.2.2 * c.1 - b.1 * c.2.2,
   b.1 * c.2.1 - b.2.1 * c.1)

/-- Componentwise embedding of np.dot for 3-vectors. -/
def dot (a b : Vec3) : ℚ :=
  a.1 * b.1 + a.2.1 * b.2.1 + a.2.2 * b.2.2

/-- Embedding of calculate_stl_volume (src/app.py lines 181 to 187): the
running accumulation of A . (B x C) over stl_mesh.vectors, then abs of the
total divided by 6. -/
def calculate_stl_volume (stl_mesh : List Tri) : ℚ :=
  |stl_mesh.foldl (fun volume t => volume + dot t.1 (cross t.2.1 t.2.2)) 0| / 6

/-- The signed-tetrahedron sum as the specification words it: the sum over
all triangles of the scalar triple product A . (B x C). -/
def signedTetraSum (m : List Tri) : ℚ :=
  (m.map (fun t => dot t.1 (cross t.2.1 t.2.2))).sum

/-- The MATERIAL_DENSITIES dictionary (src/app.py lines 141 to 152), in
source insertion order. Densities are in grams per cubic millimeter. -/
def MATERIAL_DENSITIES : List (String × ℚ) :=
  [("14K Gold", 0.0131),
   ("18K Gold", 0.0154),
   ("22K Gold", 0.0174),
   ("24K Gold", 0.0193),
   ("Silver (925)", 0.0104),
   ("Platinum (950)", 0.0214),
   ("Platinum (900)", 0.0204),
   ("Palladium", 0.0120),
   ("White Gold (18K)", 0.0147),
   ("Rose Gold (18K)", 0.0150)]

/-- The MATERIAL_COLORS dictionary (src/app.py lines 154 to 165). -/
def MATERIAL_COLORS : List (String × String) :=
  [("14K Gold", "#DAA520"),
   ("18K Gold", "#FFD700"),
   ("22K Gold", "#FFA500"),
   ("24K Gold", "#FFD700"),
   ("Silver (925)", "#C0C0C0"),
   ("Platinum (950)", "#E5E4E2"),
   ("Platinum (900)", "#E5E4E2"),
   ("Palladium", "#CED0DD"),
   ("White Gold (18K)", "#F5F5F5"),
   ("Rose Gold (18K)", "#B76E79")]

/-- The MATERIAL_INFO dictionary (src/app.py lines 167 to 178). -/
def MATERIAL_INFO : List (String × String) :=
  [("14K Gold", "58.3% pure - Common for everyday jewelry"),
   ("18K Gold", "75.0% pure - Premium jewelry standard"),
   ("22K Gold", "91.7% pure - High-end, investment grade"),
   ("24K Gold", "99.9% pure - Pure gold, very soft"),
   ("Silver (925)", "92.5% pure - Sterling silver standard"),
   ("Platinum (950)", "95.0% pure - Luxury jewelry material"),
   ("Platinum (900)", "90.0% pure - Alternative platinum alloy"),
   ("Palladium", "95.0% pure - Lighter platinum alternative"),
   ("White Gold (18K)", "75.0% pure - Gold with white metals"),
   ("Rose Gold (18K)", "75.0% pure - Gold with copper")]

/-- Embedding of calculate_weight (src/app.py lines 189 to 191):
volume_mm3 * MATERIAL_DENSITIES[material_name]. The Python dictionary access
raises KeyError on an unknown key; here the lookup returns none in that
case, so none models the raised error and some g models a returned weight.
The function performs no check on volume_mm3 itself. -/
def calculate_weight (volume_mm3 : ℚ) (material_name : String) : Option ℚ :=
  (MATERIAL_DENSITIES.lookup material_name).map (fun d => volume_mm3 * d)

/-- Embedding of the troy-ounce conversion used in main
(src/app.py lines 467 and 506): weight_g / 31.1035. -/
def troy_oz (weight_g : ℚ) : ℚ :=
  weight_g / 31.1035

/-- Embedding of the pennyweight conversion used in main
(src/app.py lines 468 and 507): weight_g / 1.55517. -/
def dwt (weight_g : ℚ) : ℚ :=
  weight_g / 1.55517

/-- Embedding of the data rows built by create_comparison_chart
(src/app.py lines 295 to 299): the list of material names in dictionary
order paired with the list of weights computed by calculate_weight. -/
def create_comparison_chart_data (volume : ℚ) : List String × List (Option ℚ) :=
  (MATERIAL_DENSITIES.map Prod.fst,
   (MATERIAL_DENSITIES.map Prod.fst).map (fun m => calculate_weight volume m))

/-- Embedding of the weight_data table built in main
(src/app.py lines 464 to 477): one row per MATERIAL_DENSITIES item, in
dictionary order, holding the material name, the weight in grams, the troy
ounces and the pennyweight. -/
def weight_table (volume : ℚ) : List (String × Option ℚ × Option ℚ × Option ℚ) :=
  MATERIAL_DENSITIES.map (fun p =>
    (p.1, calculate_weight volume p.1,
     (calculate_weight volume p.1).map (fun w => w / 31.1035),
     (calculate_weight volume p.1).map (fun w => w / 1.55517)))

/-- The normal vector of a facet as numpy-stl computes it:
cross(B - A, C - A). -/
def triNormal (tr : Tri) : Vec3 :=
  cross (tr.2.1 - tr.1) (tr.2.2 - tr.1)

/-- Modelled from the spec: the per-triangle area summed by
get_mesh_statistics (src/app.py line 201) through stl_mesh.areas, which is
computed inside the numpy-stl library (not part of this repository) as half
the Euclidean norm of cross(B - A, C - A); the specification states the
formula 0.5 * |(B - A) x (C - A)|. -/
noncomputable def triangleArea (tr : Tri) : ℝ :=
  Real.sqrt ((dot (triNormal tr) (triNormal tr) : ℚ)) / 2

/-- Embedding of the surface_area field of get_mesh_statistics
(src/app.py lines 193 to 203): stl_mesh.areas.sum(). -/
noncomputable def surfaceArea (m : List Tri) : ℝ :=
  (m.map triangleArea).sum

/-- Translation of every vertex of every triangle by a fixed vector. -/
def translateMesh (t : Vec3) (m : List Tri) : List Tri :=
  m.map (fun tr => (tr.1 + t, tr.2.1 + t, tr.2.2 + t))

/-- The three directed edges of a facet. -/
def triEdges (tr : Tri) : List (Vec3 × Vec3) :=
  [(tr.1, tr.2.1), (tr.2.1, tr.2.2), (tr.2.2, tr.1)]

/-- The multiset of directed edges of a mesh. -/
def meshEdges (m : List Tri) : Multiset (Vec3 × Vec3) :=
  ((m.map triEdges).flatten : List (Vec3 × Vec3))

/-- A closed, consistently wound mesh: every directed edge is matched by
the same number of copies of the reversed edge, which is the condition that
every edge is shared by two facets of opposite local orientation. -/
abbrev ClosedMesh (m : List Tri) : Prop :=
  meshEdges m = (meshEdges m).map Prod.swap

/-- The sum of cross products over the directed edges of one facet. -/
def triEdgeCross (tr : Tri) : Vec3 :=
  cross tr.1 tr.2.1 + cross tr.2.1 tr.2.2 + cross tr.2.2 tr.1

/-- Reversal of the winding order of one facet. -/
def flipTri (tr : Tri) : Tri :=
  (tr.1, tr.2.2, tr.2.1)

/-- The unit cube of the specification: 8 vertices at plus or minus 0.5 on
each axis, 12 triangles, wound consistently outward. -/
def unitCube : List Tri :=
  [((-0.5, -0.5, -0.5), (-0.5, 0.5, -0.5), (0.5, 0.5, -0.5)),
   ((-0.5, -0.5, -0.5), (0.5, 0.5, -0.5), (0.5, -0.5, -0.5)),
   ((-0.5, -0.5, 0.5), (0.5, -0.5, 0.5), (0.5, 0.5, 0.5)),
   ((-0.5, -0.5, 0.5), (0.5, 0.5, 0.5), (-0.5, 0.5, 0.5)),
   ((-0.5, -0.5, -0.5), (0.5, -0.5, -0.5), (0.5, -0.5, 0.5)),
   ((-0.5, -0.5, -0.5), (0.5, -0.5, 0.5), (-0.5, -0.5, 0.5)),
   ((0.5, 0.5, -0.5), (-0.5, 0.5, -0.5), (-0.5, 0.5, 0.5)),
   ((0.5, 0.5, -0.5), (-0.5, 0.5, 0.5), (0.5, 0.5, 0.5)),
   ((0.5, -0.5, -0.5), (0.5, 0.5, -0.5), (0.5, 0.5, 0.5)),
   ((0.5, -0.5, -0.5), (0.5, 0.5, 0.5), (0.5, -0.5, 0.5)),
   ((-0.5, -0.5, -0.5), (-0.5, -0.5, 0.5), (-0.5, 0.5, 0.5)),
   ((-0.5, -0.5, -0.5), (-0.5, 0.5, 0.5), (-0.5, 0.5, -0.5))]

/-- The unit cube translated to (1000, 1000, 1000). -/
def shiftedCube : List Tri :=
  translateMesh (1000, 1000, 1000) unitCube

/-- A closed tetrahedron with integer vertices, used as a concrete closed
mesh. -/
def tet : List Tri :=
  [((1, 0, 0), (0, 1, 0), (0, 0, 1)),
   ((0, 0, 0), (0, 1, 0), (1, 0, 0)),
   ((0, 0, 0), (0, 0, 1), (0, 1, 0)),
   ((0, 0, 0), (1, 0, 0), (0, 0, 1))]

/-- The error taxonomy of the specification for the mesh parser. -/
inductive STLError where
  | MalformedFile
  | EmptyMesh
  | UnsupportedEncoding

/-- Modelled from the spec: the 4-byte little-endian triangle count stored
at offset 80 of a binary STL byte buffer. The binary parser itself lives in
the numpy-stl library (mesh.Mesh.from_file, called at src/app.py line 420)
and is not part of this repository. -/
def declaredTriangleCount (data : List Nat) : Nat :=
  data.getD 80 0 + 256 * data.getD 81 0 + 65536 * data.getD 82 0 +
    16777216 * data.getD 83 0

/-- The body of a binary STL split into 50-byte facet records. -/
def stlRecords : Nat → List Nat → List (List Nat)
  | 0, _ => []
  | n + 1, body => body.take 50 :: stlRecords n (body.drop 50)

/-- Modelled from the spec: the binary STL parser (numpy-stl library code,
not in this repository). An 80-byte header is followed by a 4-byte
little-endian triangle count and then 50-byte facet records; the parser
must validate that 84 + count * 50 equals the total byte length and fail
with MalformedFile otherwise, and a file with zero facets is EmptyMesh. -/
def parseBinarySTL (data : List Nat) : Except STLError (List (List Nat)) :=
  if data.length < 84 then .error .MalformedFile
  else if 84 + declaredTriangleCount data * 50 ≠ data.length then .error .MalformedFile
  else if declaredTriangleCount data = 0 then .error .EmptyMesh
  else .ok (stlRecords (declaredTriangleCount data) (data.drop 84))

/-! Helper lemmas shared by the claim theorems. -/

lemma foldl_add_eq_sum (f : Tri → ℚ) :
    ∀ (l : List Tri) (a : ℚ), l.foldl (fun acc t => acc + f t) a = a + (l.map f).sum := by
  intro l
  induction l with
  | nil => simp
  | cons x xs ih => intro a; simp [ih, add_assoc]

lemma volume_eq_abs_sum (m : List Tri) :
    calculate_stl_volume m = |signedTetraSum m| / 6 := by
  unfold calculate_stl_volume signedTetraSum
  rw [foldl_add_eq_sum, zero_add]

lemma dot_add_right (t u v : Vec3) : dot t (u + v) = dot t u + dot t v := by
  obtain ⟨t1, t2, t3⟩ := t
  obtain ⟨u1, u2, u3⟩ := u
  obtain ⟨v1, v2, v3⟩ := v
  simp [dot, Prod.mk_add_mk]
  ring

lemma dot_zero_right (t : Vec3) : dot t 0 = 0 := by
  obtain ⟨t1, t2, t3⟩ := t
  simp [dot, Prod.fst_zero, Prod.snd_zero]

lemma crossq_anticomm (a b : Vec3) : cross a b = -cross b a := by
  obtain ⟨a1, a2, a3⟩ := a
  obtain ⟨b1, b2, b3⟩ := b
  simp only [cross, Prod.neg_mk, Prod.mk.injEq]
  refine ⟨by ring, by ring, by ring⟩

lemma tripleProduct_translate (a b c t : Vec3) :
    dot (a + t) (cross (b + t) (c + t)) =
      dot a (cross b c) + dot t (cross a b + cross b c + cross c a) := by
  obtain ⟨a1, a2, a3⟩ := a
  obtain ⟨b1, b2, b3⟩ := b
  obtain ⟨c1, c2, c3⟩ := c
  obtain ⟨t1, t2, t3⟩ := t
  simp [dot, cross, Prod.mk_add_mk]
  ring

lemma signedTetraSum_translate (t : Vec3) (m : List Tri) :
    signedTetraSum (translateMesh t m) =
      signedTetraSum m + dot t ((m.map triEdgeCross).sum) := by
  induction m with
  | nil => simp [signedTetraSum, translateMesh, dot_zero_right]
  | cons x xs ih =>
      simp only [signedTetraSum, translateMesh, List.map_cons, List.sum_cons] at ih ⊢
      rw [tripleProduct_translate, ih]
      unfold triEdgeCross
      simp only [dot_add_right]
      ring

lemma meshEdgeCross_eq (m : List Tri) :
    (m.map triEdgeCross).sum = ((meshEdges m).map (fun e => cross e.1 e.2)).sum := by
  induction m with
  | nil => simp [meshEdges]
  | cons x xs ih =>
      have h : meshEdges (x :: xs) = (triEdges x : Multiset (Vec3 × Vec3)) + meshEdges xs := by
        simp [meshEdges]
      rw [List.map_cons, List.sum_cons, ih, h, Multiset.map_add, Multiset.sum_add]
      congr 1
      simp [triEdges, triEdgeCross, add_assoc]

lemma neg_sum_map (s : Multiset (Vec3 × Vec3)) (f : Vec3 × Vec3 → Vec3) :
    (s.map (fun e => -f e)).sum = -(s.map f).sum := by
  induction s using Multiset.induction_on with
  | empty => simp
  | cons a s ih => simp [ih]; abel

lemma closed_edge_cross_sum_zero (m : List Tri) (h : ClosedMesh m) :
    ((meshEdges m).map (fun e => cross e.1 e.2)).sum = 0 := by
  set S := ((meshEdges m).map (fun e => cross e.1 e.2)).sum with hS
  have h1 : S = -S := by
    conv_lhs => rw [hS, h]
    rw [Multiset.map_map]
    have h0 : ((fun e : Vec3 × Vec3 => cross e.1 e.2) ∘ Prod.swap) =
        (fun e : Vec3 × Vec3 => -cross e.1 e.2) := by
      funext e
      simp [Prod.swap, crossq_anticomm e.1 e.2]
    rw [h0, neg_sum_map]
  have h2 : S + S = 0 := by
    nth_rewrite 1 [h1]
    abel
  have h3 : (2 : ℚ) • S = 0 := by rw [two_smul]; exact h2
  rcases smul_eq_zero.mp h3 with h4 | h4
  · norm_num at h4
  · exact h4

lemma volume_translate (t : Vec3) (m : List Tri) (h : ClosedMesh m) :
    calculate_stl_volume (translateMesh t m) = calculate_stl_volume m := by
  rw [volume_eq_abs_sum, volume_eq_abs_sum, signedTetraSum_translate, meshEdgeCross_eq,
    closed_edge_cross_sum_zero m h, dot_zero_right, add_zero]

lemma area_of_unit_normal (tr : Tri) (h : dot (triNormal tr) (triNormal tr) = 1) :
    triangleArea tr = 1 / 2 := by
  unfold triangleArea
  rw [h]
  norm_num

lemma triNormal_translate (t : Vec3) (tr : Tri) :
    triNormal (tr.1 + t, tr.2.1 + t, tr.2.2 + t) = triNormal tr := by
  obtain ⟨a, b, c⟩ := tr
  obtain ⟨a1, a2, a3⟩ := a
  obtain ⟨b1, b2, b3⟩ := b
  obtain ⟨c1, c2, c3⟩ := c
  obtain ⟨t1, t2, t3⟩ := t
  simp only [triNormal, cross, Prod.mk_add_mk, Prod.mk_sub_mk, Prod.mk.injEq]
  refine ⟨by ring, by ring, by ring⟩

lemma surfaceArea_translate (t : Vec3) (m : List Tri) :
    surfaceArea (translateMesh t m) = surfaceArea m := by
  unfold surfaceArea translateMesh
  rw [List.map_map]
  congr 1
  apply List.map_congr_left
  intro tr _
  simp only [Function.comp_apply]
  unfold triangleArea
  rw [triNormal_translate]

lemma unitCube_volume : calculate_stl_volume unitCube = 1 := by
  norm_num [calculate_stl_volume, unitCube, dot, cross, List.foldl]

lemma unitCube_area : surfaceArea unitCube = 6 := by
  have h : ∀ tr ∈ unitCube, triangleArea tr = 1 / 2 := by
    intro tr htr
    apply area_of_unit_normal
    fin_cases htr <;>
      norm_num [dot, cross, triNormal, Prod.mk_sub_mk]
  unfold surfaceArea
  rw [List.map_congr_left h]
  norm_num [unitCube]

lemma lookup_none_of_not_mem_keys :
    ∀ (l : List (String × ℚ)) (a : String), a ∉ l.map Prod.fst → l.lookup a = none := by
  intro l
  induction l with
  | nil => intro a _; rfl
  | cons x xs ih =>
      intro a ha
      rw [List.map_cons, List.mem_cons] at ha
      push_neg at ha
      rw [List.lookup_cons]
      have hb : (a == x.1) = false := beq_eq_false_iff_ne.mpr ha.1
      rw [hb]
      exact ih a ha.2

/-! Claim theorems. -/

/-- C1. For every mesh, calculate_stl_volume equals the signed-tetrahedron
formula: the absolute value of the sum over all triangles of the scalar
triple product A . (B x C), divided by 6; consequently the returned volume
is always non-negative. -/
theorem volume_is_abs_signed_tetra_sum (m : List Tri) :
    calculate_stl_volume m = |signedTetraSum m| / 6 ∧ 0 ≤ calculate_stl_volume m := by
  refine ⟨volume_eq_abs_sum m, ?_⟩
  rw [volume_eq_abs_sum m]
  positivity

/-- C2. For every non-negative volume v and every material m registered in
MATERIAL_DENSITIES with density d, calculate_weight returns exactly v * d
grams. -/
theorem weight_is_volume_times_density (v d : ℚ) (m : String) (hv : 0 ≤ v)
    (hm : MATERIAL_DENSITIES.lookup m = some d) :
    calculate_weight v m = some (v * d) := by
  unfold calculate_weight
  rw [hm]
  rfl

/-- Witness for C2 at volume 2 and material 18K Gold. -/
theorem weight_is_volume_times_density_witness :
    calculate_weight 2 "18K Gold" = some (2 * 0.0154) :=
  weight_is_volume_times_density 2 0.0154 "18K Gold" (by norm_num) rfl

/-- C3 counterexample. The claim says mass(-1.0, "18K Gold") fails with
InvalidVolume; the code performs no volume validation and returns the
number -0.0154 instead. -/
theorem negative_volume_returns_number :
    calculate_weight (-1) "18K Gold" = some (-0.0154) := by
  have h : MATERIAL_DENSITIES.lookup "18K Gold" = some 0.0154 := rfl
  unfold calculate_weight
  rw [h]
  norm_num

/-- C3 amended. calculate_weight performs no validation of the volume: for
every registered material and every volume, including negative volumes, it
returns the number v * density rather than failing. -/
theorem negative_volume_not_rejected (v d : ℚ) (m : String) (hv : v < 0)
    (hm : MATERIAL_DENSITIES.lookup m = some d) :
    calculate_weight v m = some (v * d) := by
  unfold calculate_weight
  rw [hm]
  rfl

/-- Witness for the amended C3 at volume -1 and material 18K Gold. -/
theorem negative_volume_not_rejected_witness :
    calculate_weight (-1) "18K Gold" = some (-1 * 0.0154) :=
  negative_volume_not_rejected (-1) 0.0154 "18K Gold" (by norm_num) rfl

/-- C4. Density lookup in MATERIAL_DENSITIES fails (KeyError, modelled as
none) for every identifier outside the catalog, never substituting a
default density, and returns the registered density for every identifier
in the catalog. -/
theorem density_lookup_exact (m : String) :
    (m ∉ MATERIAL_DENSITIES.map Prod.fst → MATERIAL_DENSITIES.lookup m = none) ∧
      (∀ d : ℚ, (m, d) ∈ MATERIAL_DENSITIES → MATERIAL_DENSITIES.lookup m = some d) := by
  constructor
  · exact lookup_none_of_not_mem_keys MATERIAL_DENSITIES m
  · intro d hd
    fin_cases hd <;> rfl

/-- Witness for C4: an unknown identifier fails and a known one returns its
density. -/
theorem density_lookup_exact_witness :
    MATERIAL_DENSITIES.lookup "NotARealMaterial" = none ∧
      MATERIAL_DENSITIES.lookup "18K Gold" = some 0.0154 :=
  ⟨(density_lookup_exact "NotARealMaterial").1 (by decide),
   (density_lookup_exact "18K Gold").2 0.0154
     (List.mem_cons_of_mem _ (List.mem_cons_self _ _))⟩

/-- C5. For every closed, consistently wound mesh and every translation
vector, translating all vertices leaves calculate_stl_volume unchanged;
and the unit cube (vertices at plus or minus 0.5, 12 triangles) has volume
1 and surface area 6 both centered at the origin and translated to
(1000, 1000, 1000). -/
theorem volume_translation_invariant :
    (∀ (t : Vec3) (m : List Tri), ClosedMesh m →
        calculate_stl_volume (translateMesh t m) = calculate_stl_volume m) ∧
      calculate_stl_volume unitCube = 1 ∧ surfaceArea unitCube = 6 ∧
      calculate_stl_volume shiftedCube = 1 ∧ surfaceArea shiftedCube = 6 := by
  refine ⟨fun t m h => volume_translate t m h, unitCube_volume, unitCube_area, ?_, ?_⟩
  · norm_num [calculate_stl_volume, shiftedCube, unitCube, translateMesh, dot, cross,
      List.foldl, Prod.mk_add_mk]
  · rw [shiftedCube, surfaceArea_translate]
    exact unitCube_area

/-- Witness for C5: the translation-invariance part applied to a concrete
closed tetrahedron and a concrete translation vector. -/
theorem volume_translation_invariant_witness :
    calculate_stl_volume (translateMesh (1, 2, 3) tet) = calculate_stl_volume tet :=
  volume_translation_invariant.1 (1, 2, 3) tet (by decide)

/-- C6. Reversing the vertex winding of every triangle leaves
calculate_stl_volume unchanged (the sign flip is cancelled by abs) and
leaves surfaceArea unchanged; this holds for every mesh, closed or not. -/
theorem winding_flip_invariant (m : List Tri) :
    calculate_stl_volume (m.map flipTri) = calculate_stl_volume m ∧
      surfaceArea (m.map flipTri) = surfaceArea m := by
  constructor
  · rw [volume_eq_abs_sum, volume_eq_abs_sum]
    have h : signedTetraSum (m.map flipTri) = -signedTetraSum m := by
      induction m with
      | nil => simp [signedTetraSum]
      | cons x xs ih =>
          simp only [signedTetraSum, List.map_cons, List.sum_cons] at ih ⊢
          rw [ih]
          have hx : dot (flipTri x).1 (cross (flipTri x).2.1 (flipTri x).2.2) =
              -dot x.1 (cross x.2.1 x.2.2) := by
            obtain ⟨a, b, c⟩ := x
            obtain ⟨a1, a2, a3⟩ := a
            obtain ⟨b1, b2, b3⟩ := b
            obtain ⟨c1, c2, c3⟩ := c
            simp [flipTri, dot, cross]
            ring
          rw [hx]
          ring
    rw [h, abs_neg]
  · unfold surfaceArea
    rw [List.map_map]
    congr 1
    apply List.map_congr_left
    intro tr _
    simp only [Function.comp_apply]
    unfold triangleArea
    have h : dot (triNormal (flipTri tr)) (triNormal (flipTri tr)) =
        dot (triNormal tr) (triNormal tr) := by
      obtain ⟨a, b, c⟩ := tr
      obtain ⟨a1, a2, a3⟩ := a
      obtain ⟨b1, b2, b3⟩ := b
      obtain ⟨c1, c2, c3⟩ := c
      simp [flipTri, triNormal, dot, cross, Prod.mk_sub_mk]
      ring
    rw [h]

/-- C7. For every volume, the comparison data holds exactly one entry per
MATERIAL_DENSITIES material, in dictionary order, each weight equal to
volume times that density; the same holds for the detailed weight table in
main, whose troy and pennyweight entries divide that weight by the two
conversion constants. -/
theorem comparison_one_entry_per_material (v : ℚ) :
    (create_comparison_chart_data v).1 = MATERIAL_DENSITIES.map Prod.fst ∧
      (create_comparison_chart_data v).2 =
        MATERIAL_DENSITIES.map (fun p => some (v * p.2)) ∧
      (create_comparison_chart_data v).2.length = MATERIAL_DENSITIES.length ∧
      weight_table v = MATERIAL_DENSITIES.map
        (fun p => (p.1, some (v * p.2), some (v * p.2 / 31.1035),
          some (v * p.2 / 1.55517))) := by
  refine ⟨rfl, rfl, rfl, rfl⟩

/-- C9. The troy-ounce and pennyweight conversions are division by the two
fixed literal constants 31.1035 and 1.55517, and the mass of volume
31.1035 at density 1 converts to exactly 1 troy ounce. -/
theorem unit_conversion_constants (g : ℚ) :
    troy_oz g = g / (311035 / 10000) ∧ dwt g = g / (155517 / 100000) ∧
      troy_oz (31.1035 * 1) = 1 := by
  refine ⟨?_, ?_, ?_⟩
  · unfold troy_oz; norm_num
  · unfold dwt; norm_num
  · unfold troy_oz; norm_num

/-- C8. Parsing a binary STL buffer whose declared triangle count disagrees
with (length - 84) / 50 fails with MalformedFile and produces no mesh. -/
theorem binary_stl_length_mismatch_rejected (data : List Nat)
    (h : data.length ≠ 84 + declaredTriangleCount data * 50) :
    parseBinarySTL data = .error .MalformedFile := by
  unfold parseBinarySTL
  split_ifs with h1 h2 h3
  · rfl
  · rfl
  · exact absurd (not_not.mp h2).symm h
  · exact absurd (not_not.mp h2).symm h

/-- Witness for C8: an 85-byte buffer declaring zero triangles is
rejected. -/
theorem binary_stl_length_mismatch_rejected_witness :
    parseBinarySTL (List.replicate 85 0) = .error .MalformedFile :=
  binary_stl_length_mismatch_rejected (List.replicate 85 0) (by decide)

/-- C10. The three material tables have the same keys in the same order,
so the color and description lookups performed for every registry material
never fail. -/
theorem material_tables_aligned :
    MATERIAL_DENSITIES.map Prod.fst = MATERIAL_COLORS.map Prod.fst ∧
      MATERIAL_DENSITIES.map Prod.fst = MATERIAL_INFO.map Prod.fst ∧
      (MATERIAL_DENSITIES.map Prod.fst).all
        (fun m => (MATERIAL_COLORS.lookup m).isSome &&
          (MATERIAL_INFO.lookup m).isSome) = true := by
  refine ⟨rfl, rfl, by decide⟩

end STLApp
